import Mathlib

/-!
Verification of the Polymarket trading bot's order-execution and
position-lifecycle engine (`backend/app/trading_bot.py`), shallowly embedded
over exact rational arithmetic.  Prices, sizes, balances and times (minutes to
market close) are modelled as `ℚ`; the strategy's state objects are plain
structures, and each Python method becomes a pure Lean function on them.
-/

namespace Polymarket

/-- Configuration values from `config.py` (`Settings`) that the trading logic
reads: entry trigger, target, re-entry cap, per-market position cap, order
size, taker-fee model, and the order-cancel time threshold (minutes). -/
structure Settings where
  trigger_price : ℚ
  target : ℚ
  reentry_max_price : ℚ
  max_positions_per_market : ℕ
  order_size : ℚ
  taker_fee_rate : ℚ
  min_taker_fee : ℚ
  order_cancel_threshold : ℚ
deriving DecidableEq

/-- The default field values declared in `config.py`. -/
def defaultSettings : Settings :=
  { trigger_price := 3/4
    target := 99/100
    reentry_max_price := 9/10
    max_positions_per_market := 3
    order_size := 100
    taker_fee_rate := 1/1000
    min_taker_fee := 1/1000
    order_cancel_threshold := 167/1000 }

/-- `TradingBot._calculate_taker_fee`: `max(trade_value * taker_fee_rate,
min_taker_fee)`. -/
def calculate_taker_fee (s : Settings) (trade_value : ℚ) : ℚ :=
  max (trade_value * s.taker_fee_rate) s.min_taker_fee

/-- Round-half-to-even to the nearest integer, the rounding mode of Python's
built-in `round`. -/
def roundHalfToEven (x : ℚ) : ℤ :=
  let n := ⌊x⌋
  let frac := x - n
  if frac < 1/2 then n
  else if 1/2 < frac then n + 1
  else if n % 2 = 0 then n else n + 1

/-- Python's `round(x, 2)`: round-half-to-even at two decimal places. -/
def pyRound2 (x : ℚ) : ℚ := (roundHalfToEven (100 * x) : ℚ) / 100

/-- `TradingBot._calculate_stoploss_price`:
`max(round(entry_price - stoploss_offset, 2), 0.01)`. -/
def calculate_stoploss_price (entry_price stoploss_offset : ℚ) : ℚ :=
  max (pyRound2 (entry_price - stoploss_offset)) (1/100)

/-- The `PaperTradingState` class: session-scoped strategy state for paper
mode (`position_open`, `entry_price`, `positions_taken`; the token/side fields
are not needed by any theorem and are omitted). -/
structure PaperTradingState where
  position_open : Bool
  entry_price : ℚ
  positions_taken : ℕ
deriving DecidableEq

/-- `PaperTradingState.reset`: clears the position fields and sets
`positions_taken` back to `0`. -/
def PaperTradingState.reset (_st : PaperTradingState) : PaperTradingState :=
  { position_open := false, entry_price := 0, positions_taken := 0 }

/-- `PaperTradingState.close_position`: clears the position fields and
increments `positions_taken`. -/
def PaperTradingState.close_position (st : PaperTradingState) : PaperTradingState :=
  { position_open := false, entry_price := 0
    positions_taken := st.positions_taken + 1 }

/-- The `LiveTradingState` class: session-scoped strategy state for live mode.
`buy_order_pending` models `buy_order_id is not None`. -/
structure LiveTradingState where
  position_open : Bool
  entry_price : ℚ
  positions_taken : ℕ
  buy_order_pending : Bool
  buy_filled : Bool
  filled_size : ℚ
  stoploss_price : ℚ
  sell_attempted : Bool
deriving DecidableEq

/-- `LiveTradingState.reset`: clears every field, including
`positions_taken := 0`. -/
def LiveTradingState.reset (_st : LiveTradingState) : LiveTradingState :=
  { position_open := false, entry_price := 0, positions_taken := 0
    buy_order_pending := false, buy_filled := false, filled_size := 0
    stoploss_price := 0, sell_attempted := false }

/-- `LiveTradingState.close_position`: clears every position field and sets
`positions_taken` to its previous value plus one. -/
def LiveTradingState.close_position (st : LiveTradingState) : LiveTradingState :=
  { position_open := false, entry_price := 0
    positions_taken := st.positions_taken + 1
    buy_order_pending := false, buy_filled := false, filled_size := 0
    stoploss_price := 0, sell_attempted := false }

/-- A row of the `Position` table (`database.py`): held quantity, weighted
average entry price, and accumulated realized P&L for one token. -/
structure PositionRec where
  quantity : ℚ
  avg_price : ℚ
  current_pnl : ℚ
deriving DecidableEq

/-- The `BotState` singleton row: virtual balance, cumulative realized P&L,
and the win / loss / trade counters. -/
structure BotStateRec where
  paper_balance : ℚ
  total_pnl : ℚ
  trades_count : ℕ
  wins : ℕ
  losses : ℕ
deriving DecidableEq

/-- Order side, lower-cased as the Python code compares it. -/
inductive Side where
  | buy
  | sell
deriving DecidableEq

/-- `TradingBot._update_paper_position_unified`: the paper ledger mutation for
one confirmed fill.  A buy folds the fill into the weighted average price (or
creates the position) and bumps `trades_count`; a sell — only when a position
exists and holds at least `size` — realizes fee-adjusted P&L, credits the sale
proceeds net of the sell-leg fee, and bumps the win/loss and trade counters.
Any other sell leaves both records untouched. -/
def update_paper_position_unified (s : Settings) (pos : Option PositionRec)
    (bs : BotStateRec) (side : Side) (price size : ℚ) :
    Option PositionRec × BotStateRec :=
  match side with
  | .buy =>
      let pos' :=
        match pos with
        | some p =>
            some { quantity := p.quantity + size
                   avg_price := (p.avg_price * p.quantity + price * size) /
                     (p.quantity + size)
                   current_pnl := p.current_pnl }
        | none => some { quantity := size, avg_price := price, current_pnl := 0 }
      (pos', { bs with trades_count := bs.trades_count + 1 })
  | .sell =>
      match pos with
      | some p =>
          if size ≤ p.quantity then
            let buy_value := p.avg_price * size
            let sell_value := price * size
            let buy_fee := calculate_taker_fee s buy_value
            let sell_fee := calculate_taker_fee s sell_value
            let gross_pnl := (price - p.avg_price) * size
            let net_pnl := gross_pnl - (buy_fee + sell_fee)
            (some { quantity := p.quantity - size
                    avg_price := p.avg_price
                    current_pnl := p.current_pnl + net_pnl },
             { paper_balance := bs.paper_balance + (sell_value - sell_fee)
               total_pnl := bs.total_pnl + net_pnl
               trades_count := bs.trades_count + 1
               wins := if 0 < net_pnl then bs.wins + 1 else bs.wins
               losses := if 0 < net_pnl then bs.losses else bs.losses + 1 })
          else (some p, bs)
      | none => (none, bs)

/-- `TradingBot._update_live_position`: the live-mode ledger mutation for one
confirmed fill.  The buy branch matches the paper one; the sell branch records
the gross P&L `(price - avg_price) * size` with no fee deduction and does not
touch `paper_balance`. -/
def update_live_position (_s : Settings) (pos : Option PositionRec)
    (bs : BotStateRec) (side : Side) (price size : ℚ) :
    Option PositionRec × BotStateRec :=
  match side with
  | .buy =>
      let pos' :=
        match pos with
        | some p =>
            some { quantity := p.quantity + size
                   avg_price := (p.avg_price * p.quantity + price * size) /
                     (p.quantity + size)
                   current_pnl := p.current_pnl }
        | none => some { quantity := size, avg_price := price, current_pnl := 0 }
      (pos', { bs with trades_count := bs.trades_count + 1 })
  | .sell =>
      match pos with
      | some p =>
          if size ≤ p.quantity then
            let gross_pnl := (price - p.avg_price) * size
            (some { quantity := p.quantity - size
                    avg_price := p.avg_price
                    current_pnl := p.current_pnl + gross_pnl },
             { paper_balance := bs.paper_balance
               total_pnl := bs.total_pnl + gross_pnl
               trades_count := bs.trades_count + 1
               wins := if 0 < gross_pnl then bs.wins + 1 else bs.wins
               losses := if 0 < gross_pnl then bs.losses else bs.losses + 1 })
          else (some p, bs)
      | none => (none, bs)

/-- A recorded trade row (`Trade` table): side, price, size. -/
structure TradeRec where
  side : Side
  price : ℚ
  size : ℚ
deriving DecidableEq

/-- The paper ledger as a whole: the (single-token) position row, the
`BotState` row, and the recorded trades. -/
structure PaperLedger where
  pos : Option PositionRec
  bot : BotStateRec
  trades : List TradeRec
deriving DecidableEq

/-- `TradingBot._simulate_paper_order_unified`: reject a buy outside
`[trigger_price, target)`; reject a buy whose `price * size` plus taker fee
exceeds the paper balance (before recording anything); otherwise deduct the
cost-plus-fee for a buy, record the trade as filled, and apply
`update_paper_position_unified`.  Returns `some ()` for the generated order id. -/
def simulate_paper_order_unified (s : Settings) (L : PaperLedger)
    (side : Side) (price size : ℚ) : Option Unit × PaperLedger :=
  if side = .buy ∧ price < s.trigger_price then (none, L)
  else if side = .buy ∧ s.target ≤ price then (none, L)
  else
    let trade_value := price * size
    let taker_fee := calculate_taker_fee s trade_value
    let total_cost := trade_value + taker_fee
    if side = .buy ∧ L.bot.paper_balance < total_cost then (none, L)
    else
      let bot1 :=
        if side = .buy then
          { L.bot with paper_balance := L.bot.paper_balance - total_cost }
        else L.bot
      let upd := update_paper_position_unified s L.pos bot1 side price size
      (some (),
       { pos := upd.1, bot := upd.2
         trades := L.trades ++ [{ side := side, price := price, size := size }] })

/-- The per-cycle thresholds of a strategy function: named constants read at
the top of `_execute_live_trading_strategy` / `_execute_paper_trading_strategy`
(times in minutes). -/
structure StrategyConfig where
  trigger_price : ℚ
  target : ℚ
  reentry_max_price : ℚ
  max_positions : ℕ
  no_buy_threshold : ℚ
  force_close_threshold : ℚ
  early_buy_threshold : ℚ
  order_cancel_threshold : ℚ
deriving DecidableEq

/-- The constants of `_execute_live_trading_strategy` with the `config.py`
defaults: `NO_BUY_THRESHOLD = 0/60`, `FORCE_CLOSE_THRESHOLD = 3/60`,
`EARLY_BUY_THRESHOLD = 3.5`, `order_cancel_threshold = 0.167`. -/
def liveStrategyConfig : StrategyConfig :=
  { trigger_price := 3/4, target := 99/100, reentry_max_price := 9/10
    max_positions := 3, no_buy_threshold := 0, force_close_threshold := 3/60
    early_buy_threshold := 7/2, order_cancel_threshold := 167/1000 }

/-- The constants of `_execute_paper_trading_strategy` with the `config.py`
defaults: `NO_BUY_THRESHOLD = 10/60`, `FORCE_CLOSE_THRESHOLD = 0/60`,
`EARLY_BUY_THRESHOLD = 4`, `order_cancel_threshold = 0.167`. -/
def paperStrategyConfig : StrategyConfig :=
  { trigger_price := 3/4, target := 99/100, reentry_max_price := 9/10
    max_positions := 3, no_buy_threshold := 10/60, force_close_threshold := 0
    early_buy_threshold := 4, order_cancel_threshold := 167/1000 }

/-- Which of the two outcome tokens an entry targets. -/
inductive EntrySide where
  | yesSide
  | noSide
deriving DecidableEq

/-- The action one strategy cycle takes, in the order the early returns occur
in `_execute_live_trading_strategy` (the paper variant is line-for-line the
same with its own constants). -/
inductive CycleAction where
  | forceClose
  | handleMarketClose
  | maxPositionsReached
  | monitorPosition
  | noBuyWindow
  | earlyWindow
  | placeEntry (side : EntrySide)
  | noSignal
deriving DecidableEq

/-- The slice of session state the entry decision reads. -/
structure SessionView where
  position_open : Bool
  positions_taken : ℕ
deriving DecidableEq

/-- One cycle of `_execute_live_trading_strategy` (and, with
`paperStrategyConfig`, of `_execute_paper_trading_strategy`), from the
force-close check down to the YES-then-NO entry-signal checks. -/
def strategy_step (cfg : StrategyConfig) (st : SessionView)
    (time_to_close yes_price no_price : ℚ) : CycleAction :=
  if time_to_close ≤ cfg.force_close_threshold then .forceClose
  else if time_to_close ≤ cfg.order_cancel_threshold then .handleMarketClose
  else if cfg.max_positions ≤ st.positions_taken then .maxPositionsReached
  else if st.position_open then .monitorPosition
  else if time_to_close ≤ cfg.no_buy_threshold then .noBuyWindow
  else if cfg.early_buy_threshold < time_to_close then .earlyWindow
  else if cfg.trigger_price ≤ yes_price ∧ yes_price < cfg.target ∧
      ¬(0 < st.positions_taken ∧ cfg.reentry_max_price ≤ yes_price) then
    .placeEntry .yesSide
  else if cfg.trigger_price ≤ no_price ∧ no_price < cfg.target ∧
      ¬(0 < st.positions_taken ∧ cfg.reentry_max_price ≤ no_price) then
    .placeEntry .noSide
  else .noSignal

/-- The spec-side entry condition for one price `p` (§4.2 / §8 of the spec):
`trigger ≤ p < target`, and on a re-entry additionally `p < reentryMaxPrice`. -/
def entry_qualifies (cfg : StrategyConfig) (positions_taken : ℕ) (p : ℚ) : Prop :=
  cfg.trigger_price ≤ p ∧ p < cfg.target ∧
    (0 < positions_taken → p < cfg.reentry_max_price)

instance (cfg : StrategyConfig) (n : ℕ) (p : ℚ) :
    Decidable (entry_qualifies cfg n p) := by
  unfold entry_qualifies
  infer_instance

/-- Environment for `_force_close_live_position`: whether the price query
succeeds and whether the ensuing market sell ends with a placed order. -/
structure ForceCloseEnv where
  price_available : Bool
  sell_succeeds : Bool
deriving DecidableEq

/-- What `_force_close_live_position` did, branch by branch. -/
inductive ForceCloseOutcome where
  /-- Filled position force-sold via `_market_sell`; ledger sell fill recorded. -/
  | soldPosition
  /-- Filled position, price unavailable: state closed with no ledger write. -/
  | closedNoPrice
  /-- `position_open` but the buy never filled: state closed with no ledger
  write and no `Position` row ever created. -/
  | closedUnfilled
  /-- Nothing to do (or the sell attempt failed and the position stays open). -/
  | noAction
deriving DecidableEq

/-- `TradingBot._force_close_live_position`.  Returns the new state, whether a
pending unfilled buy order was cancelled, and which branch ran.  Per the
source: first cancel a pending unfilled buy (`buy_order_id := None`); then a
filled open position is market-sold (closing on success), while an open but
unfilled position is closed directly via `close_position`. -/
def force_close_live_position (env : ForceCloseEnv) (st : LiveTradingState) :
    LiveTradingState × Bool × ForceCloseOutcome :=
  let cancelled := st.buy_order_pending && !st.buy_filled
  let st1 := if cancelled then { st with buy_order_pending := false } else st
  if st1.position_open && st1.buy_filled then
    if env.price_available then
      if env.sell_succeeds then (st1.close_position, cancelled, .soldPosition)
      else ({ st1 with sell_attempted := true }, cancelled, .noAction)
    else (st1.close_position, cancelled, .closedNoPrice)
  else if st1.position_open then (st1.close_position, cancelled, .closedUnfilled)
  else (st1, cancelled, .noAction)

/-- The state commit at the end of `_place_live_entry` (after the retry
ladder): if an order was placed, record it as the pending entry — order id
kept, entry price set, `buy_filled := False`, `position_open := True`, and the
stoploss computed from the final buy price with the 0.15 offset.  If the buy
failed after all retries (no order id), the state is left untouched. -/
def place_live_entry_commit (st : LiveTradingState) (order_placed : Bool)
    (final_buy_price : ℚ) : LiveTradingState :=
  if order_placed then
    { st with buy_order_pending := true
              entry_price := final_buy_price
              buy_filled := false
              position_open := true
              stoploss_price := calculate_stoploss_price final_buy_price (15/100) }
  else st

/-- What one ladder attempt observes: the freshly fetched time to close,
whether order placement succeeds, and whether the status check reports the
order filled. -/
structure AttemptEnv where
  time_to_close : ℚ
  place_succeeds : Bool
  fill_confirmed : Bool
deriving DecidableEq

/-- Terminal result of a fill ladder. -/
inductive LadderResult where
  | filled
  | abortedExpiry
  | failed
deriving DecidableEq

/-- The retry ladder of `_place_live_entry` (buy path), one list entry per
attempt: before every attempt the fresh time-to-close is checked against
`NO_BUY_THRESHOLD` and the ladder aborts (cancelling any outstanding order)
when it is crossed; otherwise an order is submitted, and an unfilled order is
cancelled before the next attempt.  The second component counts submitted
orders. -/
def buy_ladder (threshold : ℚ) : List AttemptEnv → LadderResult × ℕ
  | [] => (.failed, 0)
  | e :: rest =>
      if e.time_to_close ≤ threshold then (.abortedExpiry, 0)
      else if e.place_succeeds then
        if e.fill_confirmed then (.filled, 1)
        else
          let r := buy_ladder threshold rest
          (r.1, r.2 + 1)
      else buy_ladder threshold rest

/-- The retry ladder of `_market_sell` (sell path), one list entry per
attempt.  Faithful to the source, the loop body contains no time-to-close
check: the `time_to_close` field of each attempt is never read. -/
def sell_ladder : List AttemptEnv → LadderResult × ℕ
  | [] => (.failed, 0)
  | e :: rest =>
      if e.place_succeeds then
        if e.fill_confirmed then (.filled, 1)
        else
          let r := sell_ladder rest
          (r.1, r.2 + 1)
      else sell_ladder rest

/-- One entry of a market's `tokens` list as `_execute_trading_logic` reads
it: the outcome label and the token id. -/
structure TokenInfo where
  outcome : String
  token_id : String
deriving DecidableEq

/-- The token validation prefix of `TradingBot._execute_trading_logic`:
require at least two tokens and one token labelled `"Yes"` and one labelled
`"No"` (via `next(...)` = first match), else skip the cycle. -/
def validate_market_tokens (tokens : List TokenInfo) :
    Option (String × String) :=
  if tokens.length < 2 then none
  else
    match tokens.find? (fun t => t.outcome = "Yes") with
    | none => none
    | some y =>
        match tokens.find? (fun t => t.outcome = "No") with
        | none => none
        | some n => some (y.token_id, n.token_id)

/-- Result of one trading cycle at the `_execute_trading_logic` level. -/
inductive CycleResult where
  | skippedMalformed
  | dispatched (yes_id no_id : String)
deriving DecidableEq

/-- `TradingBot._execute_trading_logic`: validate the market's tokens, and
either return with the ledger untouched (malformed market) or hand the two
token ids to the per-mode strategy, abstracted here as the continuation
`dispatch`. -/
def execute_trading_logic
    (dispatch : String → String → PaperLedger → CycleResult × PaperLedger)
    (tokens : List TokenInfo) (L : PaperLedger) : CycleResult × PaperLedger :=
  match validate_market_tokens tokens with
  | none => (.skippedMalformed, L)
  | some (y, n) => dispatch y n L

/-- The market-supersession prefix of `TradingBot._run_strategy`: if the
fresh time to close is `≤ 0`, reset both session states and skip the cycle;
otherwise, if the observed market id differs from the previous cycle's, reset
both states and continue.  Returns the two states and whether the cycle is
skipped. -/
def run_strategy_market_check (prev_market_id : Option String)
    (market_id : String) (time_to_close : ℚ)
    (ps : PaperTradingState) (ls : LiveTradingState) :
    PaperTradingState × LiveTradingState × Bool :=
  if time_to_close ≤ 0 then (ps.reset, ls.reset, true)
  else
    match prev_market_id with
    | some pid => if pid = market_id then (ps, ls, false) else (ps.reset, ls.reset, false)
    | none => (ps, ls, false)

/-- The live session state of Scenario C: an entry order has been submitted
(`position_open`, order pending) but no fill has been confirmed. -/
def scenarioCState : LiveTradingState :=
  { position_open := true, entry_price := 4/5, positions_taken := 0
    buy_order_pending := true, buy_filled := false, filled_size := 0
    stoploss_price := 13/20, sell_attempted := false }

/-- A live session state with a confirmed filled position: one position
already taken, the current entry filled at 0.80. -/
def filledOpenState : LiveTradingState :=
  { position_open := true, entry_price := 4/5, positions_taken := 1
    buy_order_pending := true, buy_filled := true, filled_size := 100
    stoploss_price := 13/20, sell_attempted := false }

/-- A position of 100 shares bought at an average price of 0.80. -/
def sellPosition : PositionRec :=
  { quantity := 100, avg_price := 4/5, current_pnl := 0 }

/-- A fresh `BotState` row with the default $1000 paper balance. -/
def freshBotState : BotStateRec :=
  { paper_balance := 1000, total_pnl := 0, trades_count := 0, wins := 0, losses := 0 }

/-- A `BotState` row holding only $0.01. -/
def poorBotState : BotStateRec :=
  { paper_balance := 1/100, total_pnl := 0, trades_count := 0, wins := 0, losses := 0 }

/-- A paper ledger with no open position and the default balance. -/
def freshLedger : PaperLedger :=
  { pos := none, bot := freshBotState, trades := [] }

/-- A paper ledger with no open position and a $0.01 balance. -/
def poorLedger : PaperLedger :=
  { pos := none, bot := poorBotState, trades := [] }

/-- A fresh paper session state. -/
def freshPaperState : PaperTradingState :=
  { position_open := false, entry_price := 0, positions_taken := 0 }

/-- A fresh live session state. -/
def freshLiveState : LiveTradingState :=
  { position_open := false, entry_price := 0, positions_taken := 0
    buy_order_pending := false, buy_filled := false, filled_size := 0
    stoploss_price := 0, sell_attempted := false }

theorem roundHalfToEven_intCast (k : ℤ) : roundHalfToEven (k : ℚ) = k := by
  unfold roundHalfToEven
  simp

theorem pyRound2_div_hundred (k : ℤ) : pyRound2 ((k : ℚ) / 100) = (k : ℚ) / 100 := by
  unfold pyRound2
  rw [show (100 : ℚ) * ((k : ℚ) / 100) = (k : ℚ) by ring, roundHalfToEven_intCast]

/-- C4: for every valid entry price (and offset) on the 0.01 tick grid, the
stoploss computed at fill confirmation equals
`max(entryPrice - offset, minTick)` exactly, with `minTick = 0.01`: the
`round(·, 2)` in `_calculate_stoploss_price` is the identity on the grid. -/
theorem stoploss_price_exact (entry_price stoploss_offset : ℚ)
    (he : ∃ k : ℤ, entry_price = (k : ℚ) / 100)
    (ho : ∃ k : ℤ, stoploss_offset = (k : ℚ) / 100) :
    calculate_stoploss_price entry_price stoploss_offset
      = max (entry_price - stoploss_offset) (1/100) := by
  obtain ⟨ke, rfl⟩ := he
  obtain ⟨ko, rfl⟩ := ho
  unfold calculate_stoploss_price
  rw [show (ke : ℚ) / 100 - (ko : ℚ) / 100 = ((ke - ko : ℤ) : ℚ) / 100 by
    push_cast; ring, pyRound2_div_hundred]

/-- Witness for C4 at entry 0.76 and the configured offset 0.15. -/
theorem stoploss_price_exact_witness :
    calculate_stoploss_price (76/100) (15/100)
      = max ((76 : ℚ)/100 - 15/100) (1/100) :=
  stoploss_price_exact (76/100) (15/100) ⟨76, by norm_num⟩ ⟨15, by norm_num⟩

/-- C5: the taker fee equals `max(v * feeRate, minFee)`, and a confirmed exit
of `size` at `price` against average entry `avg_price` adds exactly
`(price - avg_price) * size - fee(avg_price * size) - fee(price * size)` to the
cumulative P&L ledger. -/
theorem fee_formula_and_net_pnl (s : Settings) (p : PositionRec)
    (bs : BotStateRec) (price size v : ℚ) (h : size ≤ p.quantity) :
    calculate_taker_fee s v = max (v * s.taker_fee_rate) s.min_taker_fee ∧
    (update_paper_position_unified s (some p) bs .sell price size).2.total_pnl
      = bs.total_pnl + ((price - p.avg_price) * size
          - calculate_taker_fee s (p.avg_price * size)
          - calculate_taker_fee s (price * size)) := by
  refine ⟨rfl, ?_⟩
  simp only [update_paper_position_unified, if_pos h]
  ring

/-- Witness for C5: sell 100 shares at 0.90 against an average entry of 0.80. -/
theorem fee_formula_and_net_pnl_witness :
    calculate_taker_fee defaultSettings 80
        = max ((80 : ℚ) * defaultSettings.taker_fee_rate) defaultSettings.min_taker_fee ∧
    (update_paper_position_unified defaultSettings (some sellPosition)
        freshBotState .sell (9/10) 100).2.total_pnl
      = freshBotState.total_pnl + ((9/10 - sellPosition.avg_price) * 100
          - calculate_taker_fee defaultSettings (sellPosition.avg_price * 100)
          - calculate_taker_fee defaultSettings ((9/10) * 100)) :=
  fee_formula_and_net_pnl defaultSettings sellPosition freshBotState (9/10) 100 80
    (by norm_num [sellPosition])

/-- C10: a confirmed sell whose size exceeds the held quantity (or with no
position record) leaves the paper ledger untouched: position row, cumulative
P&L, balance, win/loss counters and trade counter are all unchanged. -/
theorem oversize_sell_noop (s : Settings) (pos : Option PositionRec)
    (bs : BotStateRec) (price size : ℚ)
    (h : pos = none ∨ ∃ p, pos = some p ∧ p.quantity < size) :
    update_paper_position_unified s pos bs .sell price size = (pos, bs) := by
  rcases h with rfl | ⟨p, rfl, hp⟩
  · rfl
  · simp only [update_paper_position_unified, if_neg (not_le.mpr hp)]

/-- Witness for C10: selling 200 shares against a 100-share position is a
no-op on the ledger. -/
theorem oversize_sell_noop_witness :
    update_paper_position_unified defaultSettings (some sellPosition)
        freshBotState .sell (9/10) 200 = (some sellPosition, freshBotState) :=
  oversize_sell_noop defaultSettings (some sellPosition) freshBotState (9/10) 200
    (Or.inr ⟨sellPosition, rfl, by norm_num [sellPosition]⟩)

/-- C1, counterexample: in Scenario C (entry submitted, never filled, force
close crossed), `_force_close_live_position` cancels the entry but closes the
pending state through `close_position`, so `positions_taken` rises from 0 to
1 rather than staying unchanged. -/
theorem forceclose_unfilled_increments_counter :
    (force_close_live_position ⟨true, true⟩ scenarioCState).1.positions_taken = 1 ∧
    scenarioCState.positions_taken = 0 := by
  exact ⟨rfl, rfl⟩

/-- C1, amended: `close_position` raises `positions_taken` by exactly one on
every state — in particular on the ordinary close of a filled open position,
so one per full open-to-close cycle — and a rejected entry (the ladder ended
with no order placed) leaves the entire state, counter included, untouched;
but in Scenario C — entry order pending and unfilled when the force-close
threshold is crossed — the order is cancelled, no ledger position is created
(`closedUnfilled`), and `positions_taken` still increases by one because the
pending state is closed via `close_position`. -/
theorem close_increments_and_scenarioC (st₁ st₂ : LiveTradingState) (p : ℚ)
    (env : ForceCloseEnv) (hopen : st₂.position_open = true)
    (hfill : st₂.buy_filled = false) (hpend : st₂.buy_order_pending = true) :
    st₁.close_position.positions_taken = st₁.positions_taken + 1 ∧
    place_live_entry_commit st₁ false p = st₁ ∧
    (force_close_live_position env st₂).1.positions_taken = st₂.positions_taken + 1 ∧
    (force_close_live_position env st₂).2.1 = true ∧
    (force_close_live_position env st₂).2.2 = .closedUnfilled := by
  refine ⟨rfl, rfl, ?_, ?_, ?_⟩ <;>
    simp [force_close_live_position, LiveTradingState.close_position,
      hopen, hfill, hpend]

/-- Witness for C1: the +1-per-close and rejected-entry conjuncts at a filled
open position, the Scenario C conjuncts at the pending unfilled state. -/
theorem close_increments_and_scenarioC_witness :
    filledOpenState.close_position.positions_taken
        = filledOpenState.positions_taken + 1 ∧
    place_live_entry_commit filledOpenState false (4/5) = filledOpenState ∧
    (force_close_live_position ⟨true, false⟩ scenarioCState).1.positions_taken
        = scenarioCState.positions_taken + 1 ∧
    (force_close_live_position ⟨true, false⟩ scenarioCState).2.1 = true ∧
    (force_close_live_position ⟨true, false⟩ scenarioCState).2.2 = .closedUnfilled :=
  close_increments_and_scenarioC filledOpenState scenarioCState (4/5)
    ⟨true, false⟩ rfl rfl rfl

/-- C3, counterexample: both parity conjuncts fail on the code.  P&L: the
same confirmed sell (100 shares at 0.90 against an average entry of 0.80)
adds 10.00 to the live cumulative P&L but only 9.83 to the paper one.
Position counts: on the identical observation — 3.8 minutes to close, YES at
0.80, fresh session — the paper strategy accepts an entry (its early-buy
threshold is 4) while the live strategy rejects it (threshold 3.5), so the
same price sequence opens a position, and hence counts one, in paper only. -/
theorem live_paper_pnl_not_equal :
    ((update_live_position defaultSettings (some sellPosition) freshBotState
        .sell (9/10) 100).2.total_pnl
      ≠ (update_paper_position_unified defaultSettings (some sellPosition)
          freshBotState .sell (9/10) 100).2.total_pnl) ∧
    strategy_step paperStrategyConfig ⟨false, 0⟩ (19/5) (4/5) (1/5)
        = .placeEntry .yesSide ∧
    strategy_step liveStrategyConfig ⟨false, 0⟩ (19/5) (4/5) (1/5)
        = .earlyWindow := by
  refine ⟨?_, ?_, ?_⟩
  · norm_num [update_live_position, update_paper_position_unified, sellPosition,
      freshBotState, defaultSettings, calculate_taker_fee, max_def]
  · norm_num [strategy_step, paperStrategyConfig]
  · norm_num [strategy_step, liveStrategyConfig]

/-- C3, amended: both modes count closed positions identically (one per
close), but for the same confirmed sell the live ledger records gross P&L
while the paper ledger subtracts both taker fees, so the live increment
exceeds the paper increment by exactly
`fee(avg_price * size) + fee(price * size)`. -/
theorem live_paper_pnl_divergence (s : Settings) (p : PositionRec)
    (bsL bsP : BotStateRec) (price size : ℚ) (h : size ≤ p.quantity)
    (ps : PaperTradingState) (ls : LiveTradingState) :
    ((update_live_position s (some p) bsL .sell price size).2.total_pnl
        - bsL.total_pnl)
      - ((update_paper_position_unified s (some p) bsP .sell price size).2.total_pnl
        - bsP.total_pnl)
      = calculate_taker_fee s (p.avg_price * size)
        + calculate_taker_fee s (price * size) ∧
    ps.close_position.positions_taken = ps.positions_taken + 1 ∧
    ls.close_position.positions_taken = ls.positions_taken + 1 := by
  refine ⟨?_, rfl, rfl⟩
  simp only [update_live_position, update_paper_position_unified, if_pos h]
  ring

/-- Witness for C3 at the concrete sell of `live_paper_pnl_not_equal`. -/
theorem live_paper_pnl_divergence_witness :
    ((update_live_position defaultSettings (some sellPosition) freshBotState
        .sell (9/10) 100).2.total_pnl - freshBotState.total_pnl)
      - ((update_paper_position_unified defaultSettings (some sellPosition)
          freshBotState .sell (9/10) 100).2.total_pnl - freshBotState.total_pnl)
      = calculate_taker_fee defaultSettings (sellPosition.avg_price * 100)
        + calculate_taker_fee defaultSettings ((9/10) * 100) ∧
    freshPaperState.close_position.positions_taken
        = freshPaperState.positions_taken + 1 ∧
    freshLiveState.close_position.positions_taken
        = freshLiveState.positions_taken + 1 :=
  live_paper_pnl_divergence defaultSettings sellPosition freshBotState
    freshBotState (9/10) 100 (by norm_num [sellPosition]) freshPaperState
    freshLiveState

/-- C6, counterexample: a sell-ladder attempt whose fresh time-to-close is 0 —
below every threshold, e.g. the 10-second no-buy window — still submits its
order and reports `filled` instead of returning `AbortedExpiry`: the sell path
performs no deadline re-check. -/
theorem sell_ladder_no_deadline_check :
    sell_ladder [⟨0, true, true⟩] = (.filled, 1) ∧
    (0 : ℚ) ≤ paperStrategyConfig.no_buy_threshold := by
  refine ⟨rfl, by norm_num [paperStrategyConfig]⟩

/-- C6, amended: the buy ladder re-checks the deadline before every attempt
and returns `AbortedExpiry` submitting nothing further once it is crossed;
the sell ladder contains no deadline check at all — its result is invariant
under arbitrary changes of every attempt's time-to-close. -/
theorem ladder_deadline_guard (threshold : ℚ) (e : AttemptEnv)
    (rest : List AttemptEnv) (h : e.time_to_close ≤ threshold)
    (l : List AttemptEnv) (f : AttemptEnv → ℚ) :
    buy_ladder threshold (e :: rest) = (.abortedExpiry, 0) ∧
    sell_ladder (l.map fun a => { a with time_to_close := f a }) = sell_ladder l := by
  constructor
  · simp [buy_ladder, h]
  · induction l with
    | nil => rfl
    | cons a tl ih => simp [sell_ladder, ih]

/-- Witness for C6: the buy ladder aborts at once when 6 seconds remain
against a 10-second threshold, and rewriting all sell-attempt times to 0
changes nothing. -/
theorem ladder_deadline_guard_witness :
    buy_ladder (1/6) [⟨1/10, true, true⟩] = (.abortedExpiry, 0) ∧
    sell_ladder (([⟨1, true, true⟩] : List AttemptEnv).map
        fun a => { a with time_to_close := (fun _ => (0:ℚ)) a })
      = sell_ladder [⟨1, true, true⟩] :=
  ladder_deadline_guard (1/6) ⟨1/10, true, true⟩ [] (by norm_num)
    [⟨1, true, true⟩] (fun _ => 0)

/-- C7: a buy whose cost plus fee exceeds the available paper balance is
rejected locally — `None` is returned and the whole ledger (balance, position,
trade records) is left unchanged — while a buy with sufficient balance passing
the price gates is not rejected. -/
theorem insufficient_balance_guard (s : Settings) (L : PaperLedger)
    (price size : ℚ) :
    (L.bot.paper_balance < price * size + calculate_taker_fee s (price * size) →
      simulate_paper_order_unified s L .buy price size = (none, L)) ∧
    (price * size + calculate_taker_fee s (price * size) ≤ L.bot.paper_balance →
      s.trigger_price ≤ price → price < s.target →
      (simulate_paper_order_unified s L .buy price size).1.isSome = true) := by
  constructor
  · intro h
    unfold simulate_paper_order_unified
    by_cases h1 : price < s.trigger_price
    · simp [h1]
    · by_cases h2 : s.target ≤ price
      · simp [h1, h2]
      · simp [h1, h2, h]
  · intro h h1 h2
    unfold simulate_paper_order_unified
    simp [not_lt.mpr h1, not_le.mpr h2, not_lt.mpr h]

/-- Witness for C7: a $0.01 balance rejects a 100-share buy at 0.80
unchanged, and a $1000 balance accepts it. -/
theorem insufficient_balance_guard_witness :
    simulate_paper_order_unified defaultSettings poorLedger .buy (4/5) 100
        = (none, poorLedger) ∧
    (simulate_paper_order_unified defaultSettings freshLedger .buy
        (4/5) 100).1.isSome = true :=
  ⟨(insufficient_balance_guard defaultSettings poorLedger (4/5) 100).1
      (by norm_num [poorLedger, poorBotState, defaultSettings,
        calculate_taker_fee, max_def]),
   (insufficient_balance_guard defaultSettings freshLedger (4/5) 100).2
      (by norm_num [freshLedger, freshBotState, defaultSettings,
        calculate_taker_fee, max_def])
      (by norm_num [defaultSettings]) (by norm_num [defaultSettings])⟩

/-- C8: a market observation missing one of the two outcome tokens (fewer
than two tokens, or no token labelled Yes, or none labelled No) makes the
trading cycle return immediately: no order is placed and the ledger is
unchanged, whatever the per-mode strategy would have done. -/
theorem malformed_market_skips (tokens : List TokenInfo) (L : PaperLedger)
    (dispatch : String → String → PaperLedger → CycleResult × PaperLedger)
    (h : tokens.length < 2 ∨
      tokens.find? (fun t => t.outcome = "Yes") = none ∨
      tokens.find? (fun t => t.outcome = "No") = none) :
    execute_trading_logic dispatch tokens L = (.skippedMalformed, L) := by
  have hv : validate_market_tokens tokens = none := by
    unfold validate_market_tokens
    by_cases hl : tokens.length < 2
    · simp [hl]
    · rcases h with h | h | h
      · exact absurd h hl
      · simp [hl, h]
      · cases hy : tokens.find? (fun t => t.outcome = "Yes") with
        | none => simp [hl, hy]
        | some y => simp [hl, hy, h]
  unfold execute_trading_logic
  rw [hv]

/-- Witness for C8: a market with a single Yes token is skipped. -/
theorem malformed_market_skips_witness :
    execute_trading_logic (fun y n L => (.dispatched y n, L))
        [{ outcome := "Yes", token_id := "y1" }] freshLedger
      = (.skippedMalformed, freshLedger) :=
  malformed_market_skips [{ outcome := "Yes", token_id := "y1" }] freshLedger
    (fun y n L => (.dispatched y n, L)) (Or.inl (by norm_num))

/-- C9: when the market window is superseded — remaining time `≤ 0`, or the
observed market id differs from the previous cycle's — both session states
are reset before any trading decision: the open-position flags are cleared
and both `positions_taken` counters return to zero. -/
theorem session_reset_on_supersede (prev : Option String) (mid : String)
    (ttc : ℚ) (ps : PaperTradingState) (ls : LiveTradingState)
    (h : ttc ≤ 0 ∨ ∃ pid, prev = some pid ∧ pid ≠ mid) :
    ((run_strategy_market_check prev mid ttc ps ls).1.position_open = false ∧
     (run_strategy_market_check prev mid ttc ps ls).1.positions_taken = 0) ∧
    ((run_strategy_market_check prev mid ttc ps ls).2.1.position_open = false ∧
     (run_strategy_market_check prev mid ttc ps ls).2.1.positions_taken = 0) := by
  rcases h with h | ⟨pid, rfl, hne⟩
  · simp [run_strategy_market_check, h, PaperTradingState.reset,
      LiveTradingState.reset]
  · by_cases h0 : ttc ≤ 0
    · simp [run_strategy_market_check, h0, PaperTradingState.reset,
        LiveTradingState.reset]
    · simp [run_strategy_market_check, h0, hne, PaperTradingState.reset,
        LiveTradingState.reset]

/-- Witness for C9: a mid-session market rotation resets a session that had
taken two positions. -/
theorem session_reset_on_supersede_witness :
    ((run_strategy_market_check (some "m1") "m2" 1
        { position_open := true, entry_price := 4/5, positions_taken := 2 }
        scenarioCState).1.position_open = false ∧
     (run_strategy_market_check (some "m1") "m2" 1
        { position_open := true, entry_price := 4/5, positions_taken := 2 }
        scenarioCState).1.positions_taken = 0) ∧
    ((run_strategy_market_check (some "m1") "m2" 1
        { position_open := true, entry_price := 4/5, positions_taken := 2 }
        scenarioCState).2.1.position_open = false ∧
     (run_strategy_market_check (some "m1") "m2" 1
        { position_open := true, entry_price := 4/5, positions_taken := 2 }
        scenarioCState).2.1.positions_taken = 0) :=
  session_reset_on_supersede (some "m1") "m2" 1
    { position_open := true, entry_price := 4/5, positions_taken := 2 }
    scenarioCState (Or.inr ⟨"m1", rfl, by simp⟩)

/-- C2, counterexample: in the live strategy with the source's constants, at
6 seconds to close (`timeToClose = 1/10`), YES price 0.80, no position and no
positions taken, every conjunct of the claim holds — `trigger ≤ p < target`,
`positionsTaken < maxPositions`, `timeToClose > noBuyThreshold` (= 0) and
`timeToClose ≤ earlyWindowThreshold` — yet the cycle takes the
order-cancel branch and accepts no entry. -/
theorem live_entry_gate_counterexample :
    strategy_step liveStrategyConfig ⟨false, 0⟩ (1/10) (4/5) (1/5)
        = .handleMarketClose ∧
    liveStrategyConfig.no_buy_threshold < 1/10 ∧
    (1/10 : ℚ) ≤ liveStrategyConfig.early_buy_threshold ∧
    (0 : ℕ) < liveStrategyConfig.max_positions ∧
    entry_qualifies liveStrategyConfig 0 (4/5) := by
  refine ⟨?_, by norm_num [liveStrategyConfig], by norm_num [liveStrategyConfig],
    by norm_num [liveStrategyConfig], ?_⟩
  · norm_num [strategy_step, liveStrategyConfig]
  · unfold entry_qualifies liveStrategyConfig
    norm_num

/-- C2, amended: with no open position, an entry is accepted iff
`positionsTaken < maxPositions`, the time-to-close exceeds the force-close,
order-cancel and no-buy thresholds, is within the early window, and one of
the two observed prices `p` satisfies `trigger ≤ p < target` and, on a
re-entry, `p < reentryMaxPrice` (the YES price checked first). -/
theorem entry_accept_iff (cfg : StrategyConfig) (st : SessionView)
    (ttc yes_price no_price : ℚ) (hopen : st.position_open = false) :
    (∃ sd, strategy_step cfg st ttc yes_price no_price = .placeEntry sd) ↔
      (st.positions_taken < cfg.max_positions ∧
       cfg.force_close_threshold < ttc ∧
       cfg.order_cancel_threshold < ttc ∧
       cfg.no_buy_threshold < ttc ∧
       ttc ≤ cfg.early_buy_threshold ∧
       (entry_qualifies cfg st.positions_taken yes_price ∨
        entry_qualifies cfg st.positions_taken no_price)) := by
  have hq : ∀ p : ℚ,
      (cfg.trigger_price ≤ p ∧ p < cfg.target ∧
        ¬(0 < st.positions_taken ∧ cfg.reentry_max_price ≤ p)) ↔
      entry_qualifies cfg st.positions_taken p := by
    intro p
    unfold entry_qualifies
    constructor
    · rintro ⟨a, b, c⟩
      refine ⟨a, b, fun hpt => ?_⟩
      by_contra hc
      exact c ⟨hpt, not_lt.mp hc⟩
    · rintro ⟨a, b, c⟩
      refine ⟨a, b, ?_⟩
      rintro ⟨hpt, hle⟩
      exact absurd (c hpt) (not_lt.mpr hle)
  unfold strategy_step
  split_ifs with h1 h2 h3 h4 h5 h6 h7 h8
  · exact iff_of_false (by rintro ⟨sd, h⟩; simp at h)
      (by rintro ⟨-, hf, -⟩; exact absurd h1 (not_le.mpr hf))
  · exact iff_of_false (by rintro ⟨sd, h⟩; simp at h)
      (by rintro ⟨-, -, hc, -⟩; exact absurd h2 (not_le.mpr hc))
  · exact iff_of_false (by rintro ⟨sd, h⟩; simp at h)
      (by rintro ⟨hm, -⟩; exact absurd h3 (not_le.mpr hm))
  · exact absurd h4 (by simp [hopen])
  · exact iff_of_false (by rintro ⟨sd, h⟩; simp at h)
      (by rintro ⟨-, -, -, hn, -⟩; exact absurd h5 (not_le.mpr hn))
  · exact iff_of_false (by rintro ⟨sd, h⟩; simp at h)
      (by rintro ⟨-, -, -, -, he, -⟩; exact absurd h6 (not_lt.mpr he))
  · exact iff_of_true ⟨.yesSide, rfl⟩
      ⟨not_le.mp h3, not_le.mp h1, not_le.mp h2, not_le.mp h5, not_lt.mp h6,
       Or.inl ((hq yes_price).mp h7)⟩
  · exact iff_of_true ⟨.noSide, rfl⟩
      ⟨not_le.mp h3, not_le.mp h1, not_le.mp h2, not_le.mp h5, not_lt.mp h6,
       Or.inr ((hq no_price).mp h8)⟩
  · refine iff_of_false (by rintro ⟨sd, h⟩; simp at h) ?_
    rintro ⟨-, -, -, -, -, hqual | hqual⟩
    · exact h7 ((hq yes_price).mpr hqual)
    · exact h8 ((hq no_price).mpr hqual)

/-- Witness for C2: one minute from close, YES at 0.80, a fresh live session
accepts an entry. -/
theorem entry_accept_iff_witness :
    ∃ sd, strategy_step liveStrategyConfig ⟨false, 0⟩ 1 (4/5) (1/5)
        = .placeEntry sd :=
  (entry_accept_iff liveStrategyConfig ⟨false, 0⟩ 1 (4/5) (1/5) rfl).mpr
    (by
      refine ⟨by norm_num [liveStrategyConfig], by norm_num [liveStrategyConfig],
        by norm_num [liveStrategyConfig], by norm_num [liveStrategyConfig],
        by norm_num [liveStrategyConfig], Or.inl ?_⟩
      unfold entry_qualifies liveStrategyConfig
      norm_num)

end Polymarket
